import Mathlib

/-!
Shallow embedding of `src/app1.py`, the Streamlit front end of the
automobile-insurance underwriting system.  The script is one straight-line
render pass: startup checks (python-dotenv importable, `OPENAI_API_KEY`
present and non-empty, the underwriting package importable), then a
four-way view dispatch keyed on the sidebar radio value.  A render pass is
modelled as a pure function from the process environment and the current
widget values to the list of messages it displays; `st.stop()` is modelled
by returning the messages emitted so far and nothing else.
`st.set_page_config` (line 37) and `st.spinner` (lines 68 and 89) are page
configuration and transient progress UI that leave no message behind, so
they do not contribute to the output list.
-/

namespace App1

/-- One displayed message; constructors mirror the display calls
(`st.error`, `st.title`, `st.caption`, `st.header`, `st.write`,
`st.success`, `st.info`) used by `app1.py`. -/
inductive Msg where
  | error (s : String)
  | title (s : String)
  | caption (s : String)
  | header (s : String)
  | write (s : String)
  | success (s : String)
  | info (s : String)
  deriving DecidableEq

/-- Python truthiness of the `os.getenv` result on line 23
(`if not api_key:`): `None` and the empty string are falsy. -/
def pyFalsy : Option String → Bool
  | none => true
  | some s => s == ""

/-- Python `str()` of a bool as interpolated by the f-strings
(lines 74 and 94). -/
def pyBool (b : Bool) : String :=
  if b then "True" else "False"

/-- A CLI entry point of the collaborator package (`basic_main`,
`ab_test_main`, lines 29 and 30); a black-box capability the shell never
calls. -/
abbrev Collab := List String → Except String String

/-- The `underwriting` package as bound by the try-block on lines 28 to 31. -/
structure Underwriting where
  basic_main : Collab
  ab_test_main : Collab
  version : String

/-- Process environment at startup: whether python-dotenv is installed
(line 15), the value of `OPENAI_API_KEY` (line 22), and the underwriting
package when it can be found (lines 28 to 31). -/
structure Env where
  dotenv : Bool
  apiKey : Option String
  underwriting : Option Underwriting

/-- Widget values of the Basic Underwriting view (lines 62 to 67). -/
structure BasicForm where
  applicant_id : String
  rules_file : String
  run_test : Bool
  run_interactive : Bool
  evalPressed : Bool

/-- Widget values of the A/B Testing view (lines 82 to 88).  The slider
value is kept as the requested position in hundredths of the real value;
`none` means the control was left untouched. -/
structure ABForm where
  list_configs : Bool
  comprehensive : Bool
  variant_a : String
  variant_b : String
  confidenceReq : Option Nat
  abPressed : Bool

/-- Modelled from the spec: `st.slider` (line 86) is an external Streamlit
widget whose body is not in this repository; per the spec it is a bounded
continuous control that starts at its default and never yields a value
outside `[lo, hi]`, so any requested position is clamped into the range.
Positions are in hundredths of the displayed value. -/
def sliderHundredths (lo hi dflt : Nat) (req : Option Nat) : Nat :=
  match req with
  | none => dflt
  | some v => max lo (min hi v)

/-- The confidence-level control with the parameters of line 86:
minimum 0.80, maximum 0.99, default 0.95, in hundredths. -/
def confidence_level (req : Option Nat) : Nat :=
  sliderHundredths 80 99 95 req

/-- The confidence value scaled back from hundredths to a rational. -/
def confidenceQ (req : Option Nat) : ℚ :=
  (confidence_level req : ℚ) / 100

/-- Python float `repr` of a confidence value given in hundredths,
for positions between 10 and 99 (95 gives "0.95", 80 gives "0.8"). -/
def hundredthsRepr (n : Nat) : String :=
  if n % 10 = 0 then "0." ++ toString (n / 10) else "0." ++ toString n

/-- Error shown on line 19 when python-dotenv is missing. -/
def dotenvErrMsg : String :=
  "Please install python-dotenv using: pip install python-dotenv"

/-- Error shown on line 24 when the API key is absent or empty. -/
def apiKeyErrMsg : String :=
  "❌ OPENAI_API_KEY not found in your .env file. Please add it to proceed."

/-- Error shown on line 33 when the underwriting package cannot be found. -/
def modulesErrMsg : String :=
  "❌ Unable to import underwriting modules. Ensure your project structure and dependencies are correct."

/-- Page title set on line 38. -/
def appTitle : String :=
  "🚗 Automobile Insurance Underwriting System"

/-- The Home view body (lines 48 to 56). -/
def homeView : List Msg :=
  [Msg.header "Welcome 👋",
   Msg.write "\n    This Streamlit app allows you to:\n    - Perform **basic underwriting evaluations**.\n    - Run **A/B testing** for rule comparisons.\n    - Uses **OpenAI** for intelligent decisions (API Key secured via `.env`).\n    - Ready for **GitHub, Render, HuggingFace Spaces, or Streamlit Cloud**.\n    "]

/-- The About view body (lines 100 to 120). -/
def aboutView : List Msg :=
  [Msg.header "ℹ️ About This App",
   Msg.write "\n    This **Streamlit application** converts your CLI-based underwriting system into a fully interactive, deployable app.\n\n    **Features:**\n    - Securely loads your OpenAI API Key from `.env`.\n    - Supports **basic underwriting evaluation** and **A/B testing** modules.\n    - Ready for deployment on **Streamlit Cloud**, **Render**, or **HuggingFace Spaces**.\n\n    **Usage:**\n    ```\n    streamlit run app_streamlit.py\n    ```\n    Ensure your `.env` file contains:\n    ```\n    OPENAI_API_KEY=sk-xxxxxx\n    ```\n\n    Developed for clarity, portability, and direct professional usage.\n    "]

/-- A trigger action (`if st.button(...): try: ... except Exception as e:
st.error(f"Error: ...")`, lines 67 to 76 and 88 to 97): when the button is
pressed the try-body either completes with its display calls or raises a
fault, which is caught and shown as one error message. -/
def runTrigger (pressed : Bool) (body : Except String (List Msg)) : List Msg :=
  if pressed then
    match body with
    | Except.ok msgs => msgs
    | Except.error e => [Msg.error ("Error: " ++ e)]
  else []

/-- Modelled from the spec: the try-body of the Basic Underwriting trigger.
The stub on lines 70 to 74 only issues display calls and cannot raise; the
`fault` argument stands for an error raised by the Basic Evaluator call
that the source comments out on line 70 (spec sections 4.1 and 7), with
`none` reproducing the current behavior exactly. -/
def basicTriggerBody (bf : BasicForm) (fault : Option String) :
    Except String (List Msg) :=
  match fault with
  | some e => Except.error e
  | none => Except.ok
      [Msg.success "✅ Underwriting evaluation completed (demo).",
       Msg.info ("Applicant ID: " ++
         (if bf.applicant_id = "" then "N/A" else bf.applicant_id)),
       Msg.info ("Rules File: " ++ bf.rules_file),
       Msg.info ("Run Test: " ++ pyBool bf.run_test ++
         ", Run Interactive: " ++ pyBool bf.run_interactive)]

/-- The Basic Underwriting view body (lines 59 to 76) with an injectable
trigger fault. -/
def basicViewWith (bf : BasicForm) (fault : Option String) : List Msg :=
  Msg.header "🧾 Basic Underwriting Evaluation" ::
    runTrigger bf.evalPressed (basicTriggerBody bf fault)

/-- The Basic Underwriting view body exactly as in the source: the stub
trigger body never faults. -/
def basicView (bf : BasicForm) : List Msg :=
  basicViewWith bf none

/-- Modelled from the spec: the try-body of the A/B Testing trigger.  The
stub on lines 92 to 95 only issues display calls and cannot raise; the
`fault` argument stands for an error raised by the A/B Comparator call that
the source comments out on line 91 (spec sections 4.1 and 7), with `none`
reproducing the current behavior exactly. -/
def abTriggerBody (af : ABForm) (fault : Option String) :
    Except String (List Msg) :=
  match fault with
  | some e => Except.error e
  | none => Except.ok
      [Msg.success "✅ A/B testing completed (demo).",
       Msg.info ("Variants Compared: " ++ af.variant_a ++ " vs " ++ af.variant_b),
       Msg.info ("Comprehensive: " ++ pyBool af.comprehensive ++
         ", Confidence: " ++ hundredthsRepr (confidence_level af.confidenceReq)),
       Msg.info ("List Configs: " ++ pyBool af.list_configs)]

/-- The A/B Testing view body (lines 79 to 97) with an injectable trigger
fault. -/
def abViewWith (af : ABForm) (fault : Option String) : List Msg :=
  Msg.header "🧪 A/B Testing Module" ::
    runTrigger af.abPressed (abTriggerBody af fault)

/-- The A/B Testing view body exactly as in the source: the stub trigger
body never faults. -/
def abView (af : ABForm) : List Msg :=
  abViewWith af none

/-- The four-way view dispatch (lines 48 to 120): chained string
comparisons on the sidebar radio value. -/
def renderView (menu : String) (bf : BasicForm) (af : ABForm) : List Msg :=
  if menu = "🏠 Home" then homeView
  else if menu = "🧾 Basic Underwriting" then basicView bf
  else if menu = "🧪 A/B Testing" then abView af
  else if menu = "ℹ️ About" then aboutView
  else []

/-- One whole render pass of the script: the startup checks of lines 15 to
34 in order (each failing check emits one error and stops), then the title
and version caption (lines 38 and 39) and the selected view. -/
def renderApp (e : Env) (menu : String) (bf : BasicForm) (af : ABForm) :
    List Msg :=
  if e.dotenv = false then [Msg.error dotenvErrMsg]
  else if pyFalsy e.apiKey then [Msg.error apiKeyErrMsg]
  else
    match e.underwriting with
    | none => [Msg.error modulesErrMsg]
    | some uw =>
        Msg.title appTitle ::
        Msg.caption ("Version: " ++ uw.version) ::
        renderView menu bf af

/-- The render pass as a relation between the startup state, the widget
values, and the displayed message sequence, one constructor per control
path of the script. -/
inductive Renders (e : Env) (menu : String) (bf : BasicForm) (af : ABForm) :
    List Msg → Prop where
  | noDotenv : e.dotenv = false → Renders e menu bf af [Msg.error dotenvErrMsg]
  | noKey : e.dotenv = true → pyFalsy e.apiKey = true →
      Renders e menu bf af [Msg.error apiKeyErrMsg]
  | noModules : e.dotenv = true → pyFalsy e.apiKey = false →
      e.underwriting = none → Renders e menu bf af [Msg.error modulesErrMsg]
  | ok (uw : Underwriting) : e.dotenv = true → pyFalsy e.apiKey = false →
      e.underwriting = some uw →
      Renders e menu bf af
        (Msg.title appTitle :: Msg.caption ("Version: " ++ uw.version) ::
          renderView menu bf af)

/-- A concrete underwriting package used in witnesses. -/
def uw0 : Underwriting :=
  ⟨fun _ => Except.ok "", fun _ => Except.ok "", "1.0.0"⟩

/-- A concrete healthy environment used in witnesses. -/
def env0 : Env :=
  ⟨true, some "sk-test", some uw0⟩

/-- A concrete Basic Underwriting form used in witnesses. -/
def bf0 : BasicForm :=
  ⟨"", "config/rules/underwriting_rules.json", false, false, false⟩

/-- A concrete A/B Testing form used in witnesses. -/
def af0 : ABForm :=
  ⟨false, false, "", "", none, false⟩

/-- The render relation covers the render function: every render pass
admits a derivation whose output is `renderApp`. -/
theorem renders_total (e : Env) (menu : String) (bf : BasicForm) (af : ABForm) :
    Renders e menu bf af (renderApp e menu bf af) := by
  rcases e with ⟨d, k, u⟩
  cases d
  · exact Renders.noDotenv rfl
  · cases hk : pyFalsy k
    · cases u with
      | none =>
          have h : renderApp ⟨true, k, none⟩ menu bf af
              = [Msg.error modulesErrMsg] := by
            simp [renderApp, hk]
          rw [h]
          exact Renders.noModules rfl hk rfl
      | some uw =>
          have h : renderApp ⟨true, k, some uw⟩ menu bf af
              = Msg.title appTitle ::
                Msg.caption ("Version: " ++ uw.version) ::
                renderView menu bf af := by
            simp [renderApp, hk]
          rw [h]
          exact Renders.ok uw rfl hk rfl
    · have h : renderApp ⟨true, k, u⟩ menu bf af
          = [Msg.error apiKeyErrMsg] := by
        simp [renderApp, hk]
      rw [h]
      exact Renders.noKey rfl hk

/-- C1: whenever the API credential is absent or empty, the render pass
displays exactly one message, an error, and stops before any view output
(the title, caption, headers and bodies never appear). -/
theorem missing_api_key_single_error (e : Env) (menu : String)
    (bf : BasicForm) (af : ABForm) (h : pyFalsy e.apiKey = true) :
    ∃ s, renderApp e menu bf af = [Msg.error s] := by
  rcases e with ⟨d, k, u⟩
  cases d
  · exact ⟨dotenvErrMsg, rfl⟩
  · exact ⟨apiKeyErrMsg, by simp [renderApp, h]⟩

/-- Witness for C1 at a concrete environment with an empty key. -/
theorem missing_api_key_single_error_witness :
    ∃ s, renderApp ⟨true, some "", none⟩ "🏠 Home" bf0 af0 = [Msg.error s] :=
  missing_api_key_single_error ⟨true, some "", none⟩ "🏠 Home" bf0 af0 (by decide)

/-- C2: each of the four navigation labels renders exactly its own view
body and nothing of the other three. -/
theorem four_way_dispatch (bf : BasicForm) (af : ABForm) :
    renderView "🏠 Home" bf af = homeView ∧
    renderView "🧾 Basic Underwriting" bf af = basicView bf ∧
    renderView "🧪 A/B Testing" bf af = abView af ∧
    renderView "ℹ️ About" bf af = aboutView :=
  ⟨rfl, rfl, rfl, rfl⟩

/-- C3: in the Basic Underwriting view, an empty applicant id with the
default rules path and a pressed trigger yields the success status and an
echoed applicant id display of "N/A". -/
theorem empty_applicant_echoes_na (rt ri : Bool) :
    Msg.success "✅ Underwriting evaluation completed (demo)." ∈
      basicView ⟨"", "config/rules/underwriting_rules.json", rt, ri, true⟩ ∧
    Msg.info "Applicant ID: N/A" ∈
      basicView ⟨"", "config/rules/underwriting_rules.json", rt, ri, true⟩ := by
  cases rt <;> cases ri <;> exact ⟨by decide, by decide⟩

/-- C4: in the A/B Testing view, variants "A1" and "A2" with the untouched
confidence control (default 0.95) and a pressed trigger yield the success
status and echoes of both variant identifiers and of the 0.95 confidence. -/
theorem ab_defaults_echoed (lc comp : Bool) :
    Msg.success "✅ A/B testing completed (demo)." ∈
      abView ⟨lc, comp, "A1", "A2", none, true⟩ ∧
    Msg.info "Variants Compared: A1 vs A2" ∈
      abView ⟨lc, comp, "A1", "A2", none, true⟩ ∧
    Msg.info ("Comprehensive: " ++ pyBool comp ++ ", Confidence: 0.95") ∈
      abView ⟨lc, comp, "A1", "A2", none, true⟩ := by
  cases lc <;> cases comp <;> exact ⟨by decide, by decide, by decide⟩

/-- C5: every value the confidence control can yield lies in
[0.80, 0.99], and the untouched control yields the default 0.95. -/
theorem confidence_clamped :
    (∀ req : Option Nat,
      (0.80 : ℚ) ≤ confidenceQ req ∧ confidenceQ req ≤ (0.99 : ℚ)) ∧
    confidenceQ none = (0.95 : ℚ) := by
  constructor
  · intro req
    have hb : 80 ≤ confidence_level req ∧ confidence_level req ≤ 99 := by
      cases req with
      | none => exact ⟨by decide, by decide⟩
      | some v =>
          simp only [confidence_level, sliderHundredths]
          omega
    have h1q : (80 : ℚ) ≤ (confidence_level req : ℚ) := by exact_mod_cast hb.1
    have h2q : (confidence_level req : ℚ) ≤ 99 := by exact_mod_cast hb.2
    unfold confidenceQ
    constructor
    · rw [le_div_iff₀ (by norm_num : (0 : ℚ) < 100)]
      linarith
    · rw [div_le_iff₀ (by norm_num : (0 : ℚ) < 100)]
      linarith
  · norm_num [confidenceQ, confidence_level, sliderHundredths]

/-- C6: the render output is unchanged under any replacement of the two
collaborator entry points, so the trigger actions never invoke them, and a
pressed trigger unconditionally emits the fixed success message followed by
an echo of the raw input values. -/
theorem triggers_ignore_collaborators (d : Bool) (k : Option String)
    (uw : Underwriting) (f g : Collab) (menu : String)
    (bf : BasicForm) (af : ABForm) :
    renderApp ⟨d, k, some ⟨f, g, uw.version⟩⟩ menu bf af
      = renderApp ⟨d, k, some uw⟩ menu bf af ∧
    basicView ⟨bf.applicant_id, bf.rules_file, bf.run_test, bf.run_interactive, true⟩
      = [Msg.header "🧾 Basic Underwriting Evaluation",
         Msg.success "✅ Underwriting evaluation completed (demo).",
         Msg.info ("Applicant ID: " ++
           (if bf.applicant_id = "" then "N/A" else bf.applicant_id)),
         Msg.info ("Rules File: " ++ bf.rules_file),
         Msg.info ("Run Test: " ++ pyBool bf.run_test ++
           ", Run Interactive: " ++ pyBool bf.run_interactive)] ∧
    abView ⟨af.list_configs, af.comprehensive, af.variant_a, af.variant_b,
        af.confidenceReq, true⟩
      = [Msg.header "🧪 A/B Testing Module",
         Msg.success "✅ A/B testing completed (demo).",
         Msg.info ("Variants Compared: " ++ af.variant_a ++ " vs " ++ af.variant_b),
         Msg.info ("Comprehensive: " ++ pyBool af.comprehensive ++
           ", Confidence: " ++ hundredthsRepr (confidence_level af.confidenceReq)),
         Msg.info ("List Configs: " ++ pyBool af.list_configs)] :=
  ⟨rfl, rfl, rfl⟩

/-- C7: a fault raised inside either trigger body is caught there and shown
as a single error message after the view header, the render pass still
completes normally, and a subsequent fault-free press succeeds again. -/
theorem trigger_fault_caught (bf : BasicForm) (af : ABForm) (e : String) :
    basicViewWith ⟨bf.applicant_id, bf.rules_file, bf.run_test,
        bf.run_interactive, true⟩ (some e)
      = [Msg.header "🧾 Basic Underwriting Evaluation",
         Msg.error ("Error: " ++ e)] ∧
    abViewWith ⟨af.list_configs, af.comprehensive, af.variant_a, af.variant_b,
        af.confidenceReq, true⟩ (some e)
      = [Msg.header "🧪 A/B Testing Module", Msg.error ("Error: " ++ e)] ∧
    Msg.success "✅ Underwriting evaluation completed (demo)." ∈
      basicViewWith ⟨bf.applicant_id, bf.rules_file, bf.run_test,
        bf.run_interactive, true⟩ none ∧
    Msg.success "✅ A/B testing completed (demo)." ∈
      abViewWith ⟨af.list_configs, af.comprehensive, af.variant_a, af.variant_b,
        af.confidenceReq, true⟩ none :=
  ⟨rfl, rfl,
   List.mem_cons_of_mem _ (List.mem_cons_self _ _),
   List.mem_cons_of_mem _ (List.mem_cons_self _ _)⟩

/-- C8: when the underwriting modules cannot be imported at startup, the
render pass displays a single user-visible error and stops before any view
is shown. -/
theorem missing_modules_halt (e : Env) (menu : String) (bf : BasicForm)
    (af : ABForm) (h : e.underwriting = none) :
    ∃ s, renderApp e menu bf af = [Msg.error s] := by
  rcases e with ⟨d, k, u⟩
  cases h
  cases d
  · exact ⟨dotenvErrMsg, rfl⟩
  · cases hk : pyFalsy k
    · exact ⟨modulesErrMsg, by simp [renderApp, hk]⟩
    · exact ⟨apiKeyErrMsg, by simp [renderApp, hk]⟩

/-- Witness for C8 at a concrete environment with a key but no modules. -/
theorem missing_modules_halt_witness :
    ∃ s, renderApp ⟨true, some "sk-test", none⟩ "🏠 Home" bf0 af0
      = [Msg.error s] :=
  missing_modules_halt ⟨true, some "sk-test", none⟩ "🏠 Home" bf0 af0 rfl

/-- C9: the render pass is deterministic: two renders from the same
environment and the same widget values display the same message
sequence. -/
theorem render_deterministic (e : Env) (menu : String) (bf : BasicForm)
    (af : ABForm) (o₁ o₂ : List Msg) (h₁ : Renders e menu bf af o₁)
    (h₂ : Renders e menu bf af o₂) : o₁ = o₂ := by
  cases h₁ <;> cases h₂ <;> simp_all

/-- Witness for C9: two derivations of the healthy concrete render agree. -/
theorem render_deterministic_witness :
    (Msg.title appTitle :: Msg.caption ("Version: " ++ uw0.version) ::
        renderView "🏠 Home" bf0 af0)
      = (Msg.title appTitle :: Msg.caption ("Version: " ++ uw0.version) ::
        renderView "🏠 Home" bf0 af0) :=
  render_deterministic env0 "🏠 Home" bf0 af0 _ _
    (Renders.ok uw0 rfl (by decide) rfl) (Renders.ok uw0 rfl (by decide) rfl)

/-- C10: a pressed trigger echoes a non-empty applicant id verbatim, and
the "N/A" placeholder is substituted exactly when the id is the empty
string. -/
theorem applicant_echo_verbatim (bf : BasicForm) :
    (bf.applicant_id ≠ "" →
      basicView ⟨bf.applicant_id, bf.rules_file, bf.run_test,
          bf.run_interactive, true⟩
        = [Msg.header "🧾 Basic Underwriting Evaluation",
           Msg.success "✅ Underwriting evaluation completed (demo).",
           Msg.info ("Applicant ID: " ++ bf.applicant_id),
           Msg.info ("Rules File: " ++ bf.rules_file),
           Msg.info ("Run Test: " ++ pyBool bf.run_test ++
             ", Run Interactive: " ++ pyBool bf.run_interactive)]) ∧
    (bf.applicant_id = "" →
      basicView ⟨bf.applicant_id, bf.rules_file, bf.run_test,
          bf.run_interactive, true⟩
        = [Msg.header "🧾 Basic Underwriting Evaluation",
           Msg.success "✅ Underwriting evaluation completed (demo).",
           Msg.info "Applicant ID: N/A",
           Msg.info ("Rules File: " ++ bf.rules_file),
           Msg.info ("Run Test: " ++ pyBool bf.run_test ++
             ", Run Interactive: " ++ pyBool bf.run_interactive)]) := by
  constructor
  · intro h
    simp [basicView, basicViewWith, runTrigger, basicTriggerBody, h]
  · intro h
    simp [basicView, basicViewWith, runTrigger, basicTriggerBody, h]

/-- Witness for C10 at the concrete applicant id "A123". -/
theorem applicant_echo_verbatim_witness :
    basicView ⟨"A123", "config/rules/underwriting_rules.json", false, false,
        true⟩
      = [Msg.header "🧾 Basic Underwriting Evaluation",
         Msg.success "✅ Underwriting evaluation completed (demo).",
         Msg.info ("Applicant ID: " ++ "A123"),
         Msg.info ("Rules File: " ++ "config/rules/underwriting_rules.json"),
         Msg.info ("Run Test: " ++ pyBool false ++
           ", Run Interactive: " ++ pyBool false)] :=
  (applicant_echo_verbatim
    ⟨"A123", "config/rules/underwriting_rules.json", false, false, false⟩).1
    (by decide)

end App1
